import Mathlib

/-!
Verification of the msaa-line example (src/examples/msaa-line/main.rs).

The development shallowly embeds the `Example` state machine of the source
file: its fields, and the four framework entry points `init`, `update`,
`resize` and `render`.  GPU handles (pipeline, bundle, texture view) are
modelled as records of the configuration data the source bakes into them at
creation time; shader modules, the pipeline layout and the vertex buffer are
opaque handles.  Machine integers (`u32`) are modelled as `Nat`; the one
shift that could overflow a `u32` carries an explicit `% 2 ^ 32`.
The floating point geometry is modelled over the reals.
-/

namespace MsaaLine

/-- `wgpu::SwapChainDescriptor`: the fields the example reads
(`width`, `height`, `format`).  The pixel format is an opaque code. -/
structure SwapChainDescriptor where
  width : Nat
  height : Nat
  format : Nat
deriving DecidableEq

/-- `Vertex { _pos: [f32; 2], _color: [f32; 4] }`, with the `f32`
components idealised as real numbers. -/
structure Vertex where
  pos : ℝ × ℝ
  color : ℝ × ℝ × ℝ × ℝ

/-- The angle `percent * 2.0 * PI` computed in the vertex loop of `init`,
where `percent = i as f32 / max as f32`. -/
noncomputable def angleOf (max i : ℕ) : ℝ :=
  ((i : ℝ) / (max : ℝ)) * (2 * Real.pi)

/-- The first vertex pushed per loop iteration in `init`:
`_pos: [0.0, 0.0], _color: [1.0, -sin, cos, 1.0]`. -/
noncomputable def centerVertex (max i : ℕ) : Vertex :=
  { pos := (0, 0)
    color := (1, -Real.sin (angleOf max i), Real.cos (angleOf max i), 1) }

/-- The second vertex pushed per loop iteration in `init`:
`_pos: [1.0 * cos, 1.0 * sin], _color: [sin, -cos, 1.0, 1.0]`. -/
noncomputable def rimVertex (max i : ℕ) : Vertex :=
  { pos := (1 * Real.cos (angleOf max i), 1 * Real.sin (angleOf max i))
    color := (Real.sin (angleOf max i), -Real.cos (angleOf max i), 1, 1) }

/-- The vertex-generation loop of `init`: `for i in 0..max` push the center
vertex then the rim vertex.  The source fixes `max = 50`; the loop is
parametrised here by `max` (the spec's `segment_count`). -/
noncomputable def vertex_data (max : ℕ) : List Vertex :=
  (List.range max).flatMap (fun i => [centerVertex max i, rimVertex max i])

/-- The render pipeline created by `create_bundle`: the configuration data
that depends on the `Example` state is the color target format
(`sc_desc.format`) and `sample_count`. -/
structure RenderPipeline where
  format : Nat
  sample_count : Nat
deriving DecidableEq

/-- `wgpu::RenderBundle` as recorded by `create_bundle`: the bundle encoder
is created with `color_formats: &[sc_desc.format]` and `sample_count`, binds
the freshly created pipeline, and draws `0..vertex_count`. -/
structure RenderBundle where
  pipeline : RenderPipeline
  color_format : Nat
  sample_count : Nat
  vertex_count : Nat
deriving DecidableEq

/-- `Example::create_bundle`: builds a pipeline for `sc_desc.format` and
`sample_count`, then records a bundle against it drawing
`0..vertex_count`. -/
def create_bundle (sc_desc : SwapChainDescriptor) (sample_count : Nat)
    (vertex_count : Nat) : RenderBundle :=
  let pipeline : RenderPipeline :=
    { format := sc_desc.format, sample_count := sample_count }
  { pipeline := pipeline
    color_format := sc_desc.format
    sample_count := sample_count
    vertex_count := vertex_count }

/-- `wgpu::TextureView` handed out by `create_default_view`, recording the
creation-time extent, sample count and format of its texture. -/
structure TextureView where
  width : Nat
  height : Nat
  sample_count : Nat
  format : Nat
deriving DecidableEq

/-- `Example::create_multisampled_framebuffer`: a 2D texture of extent
`(sc_desc.width, sc_desc.height, 1)` with the given `sample_count` and the
surface format, viewed whole. -/
def create_multisampled_framebuffer (sc_desc : SwapChainDescriptor)
    (sample_count : Nat) : TextureView :=
  { width := sc_desc.width
    height := sc_desc.height
    sample_count := sample_count
    format := sc_desc.format }

/-- The `struct Example` state.  `vs_module`, `fs_module`,
`pipeline_layout` are opaque handles; `vertex_buffer` holds the vertex data
uploaded at creation. -/
structure Example where
  bundle : RenderBundle
  vs_module : Nat
  fs_module : Nat
  pipeline_layout : Nat
  multisampled_framebuffer : TextureView
  vertex_buffer : List Vertex
  vertex_count : Nat
  sample_count : Nat
  rebuild_bundle : Bool
  sc_desc : SwapChainDescriptor

/-- `winit::event::ElementState`. -/
inductive ElementState
  | Pressed
  | Released
deriving DecidableEq

/-- The `winit` virtual key codes the example distinguishes: `Left`,
`Right`, and anything else. -/
inductive VirtualKeyCode
  | Left
  | Right
  | OtherKey
deriving DecidableEq

/-- The `winit::event::WindowEvent` shapes the example distinguishes:
a keyboard input with element state and optional key code, or any other
event. -/
inductive WindowEvent
  | KeyboardInput (state : ElementState) (virtual_keycode : Option VirtualKeyCode)
  | OtherEvent
deriving DecidableEq

/-- `Example::init`: sample_count starts at 4, static resources are
created, the multisample framebuffer is built for the initial surface
descriptor, the vertex loop runs with `max = 50`, and the first bundle is
built; `rebuild_bundle` starts `false`. -/
noncomputable def init (sc_desc : SwapChainDescriptor) : Example :=
  let sample_count := 4
  let vs_module := 0
  let fs_module := 1
  let pipeline_layout := 2
  let multisampled_framebuffer :=
    create_multisampled_framebuffer sc_desc sample_count
  let vdata := vertex_data 50
  let vertex_buffer := vdata
  let vertex_count := vdata.length
  let bundle := create_bundle sc_desc sample_count vertex_count
  { bundle := bundle
    vs_module := vs_module
    fs_module := fs_module
    pipeline_layout := pipeline_layout
    multisampled_framebuffer := multisampled_framebuffer
    vertex_buffer := vertex_buffer
    vertex_count := vertex_count
    sample_count := sample_count
    rebuild_bundle := false
    sc_desc := sc_desc }

/-- `Example::update`: on a pressed `Left` key with `sample_count >= 2`,
halve (`>> 1`) and mark dirty; on a pressed `Right` key with
`sample_count <= 16`, double (`<< 1`, as a `u32`) and mark dirty; all other
events are ignored. -/
def update (self : Example) (event : WindowEvent) : Example :=
  match event with
  | .KeyboardInput state key =>
    match state with
    | .Pressed =>
      match key with
      | some .Left =>
        if 2 ≤ self.sample_count then
          { self with
            sample_count := self.sample_count >>> 1
            rebuild_bundle := true }
        else self
      | some .Right =>
        if self.sample_count ≤ 16 then
          { self with
            sample_count := (self.sample_count <<< 1) % 2 ^ 32
            rebuild_bundle := true }
        else self
      | _ => self
    | .Released => self
  | .OtherEvent => self

/-- `Example::resize`: store the new swap-chain descriptor and rebuild the
multisample framebuffer for it at the current `sample_count`.  No other
field is assigned. -/
def resize (self : Example) (sc_desc : SwapChainDescriptor) : Example :=
  { self with
    sc_desc := sc_desc
    multisampled_framebuffer :=
      create_multisampled_framebuffer sc_desc self.sample_count }

/-- `wgpu::LoadOp`. -/
inductive LoadOp
  | Clear
  | Load
deriving DecidableEq

/-- `wgpu::StoreOp`. -/
inductive StoreOp
  | Store
  | Clear
deriving DecidableEq

/-- `wgpu::Color` with rational components; only `BLACK` is used. -/
structure Color where
  r : ℚ
  g : ℚ
  b : ℚ
  a : ℚ
deriving DecidableEq

/-- `wgpu::Color::BLACK`. -/
def Color.BLACK : Color := { r := 0, g := 0, b := 0, a := 1 }

/-- `wgpu::RenderPassColorAttachmentDescriptor` as built in `render`. -/
structure RenderPassColorAttachmentDescriptor where
  attachment : TextureView
  resolve_target : Option TextureView
  load_op : LoadOp
  store_op : StoreOp
  clear_color : Color
deriving DecidableEq

/-- `wgpu::SwapChainTexture`: the presentable frame, exposing its view. -/
structure SwapChainTexture where
  view : TextureView
deriving DecidableEq

/-- The command buffer returned by `render`: one render pass with its color
attachments and the bundles executed inside it. -/
structure CommandBuffer where
  color_attachments : List RenderPassColorAttachmentDescriptor
  executed_bundles : List RenderBundle
deriving DecidableEq

/-- The observable outcome of one `render` call: the mutated `Example`
state, the finished command buffer, and whether `create_bundle` was invoked
during the call. -/
structure RenderResult where
  state : Example
  command : CommandBuffer
  bundle_built : Bool

/-- `Example::render`: if `rebuild_bundle` is set, rebuild the bundle and
the multisample framebuffer from the current `sc_desc` and `sample_count`
and clear the flag; then encode one render pass whose single color
attachment is the frame view (no resolve target) when `sample_count == 1`,
or the multisample framebuffer resolving into the frame view otherwise,
and execute the stored bundle inside it. -/
def render (self : Example) (frame : SwapChainTexture) : RenderResult :=
  let rebuilt : Example :=
    if self.rebuild_bundle then
      { self with
        bundle := create_bundle self.sc_desc self.sample_count self.vertex_count
        multisampled_framebuffer :=
          create_multisampled_framebuffer self.sc_desc self.sample_count
        rebuild_bundle := false }
    else self
  let rpass_color_attachment : RenderPassColorAttachmentDescriptor :=
    if rebuilt.sample_count = 1 then
      { attachment := frame.view
        resolve_target := none
        load_op := LoadOp.Clear
        store_op := StoreOp.Store
        clear_color := Color.BLACK }
    else
      { attachment := rebuilt.multisampled_framebuffer
        resolve_target := some frame.view
        load_op := LoadOp.Clear
        store_op := StoreOp.Store
        clear_color := Color.BLACK }
  { state := rebuilt
    command :=
      { color_attachments := [rpass_color_attachment]
        executed_bundles := [rebuilt.bundle] }
    bundle_built := self.rebuild_bundle }

/-- The two semantically meaningful inputs: a pressed `Right` key
(increase) or a pressed `Left` key (decrease). -/
inductive MsaaInput
  | increase
  | decrease
deriving DecidableEq

/-- The window event corresponding to an increase or decrease input. -/
def inputEvent : MsaaInput → WindowEvent
  | .increase => .KeyboardInput .Pressed (some .Right)
  | .decrease => .KeyboardInput .Pressed (some .Left)

/-- Apply a sequence of increase/decrease inputs through `update`. -/
def applyInputs (self : Example) (inputs : List MsaaInput) : Example :=
  inputs.foldl (fun s i => update s (inputEvent i)) self

/-- One externally triggered transition of the `Example` state. -/
inductive Step : Example → Example → Prop
  | doUpdate (e : Example) (ev : WindowEvent) : Step e (update e ev)
  | doResize (e : Example) (sc : SwapChainDescriptor) : Step e (resize e sc)
  | doRender (e : Example) (frame : SwapChainTexture) :
      Step e (render e frame).state

/-- States reachable from `init sc0` by update/resize/render transitions. -/
inductive Reachable (sc0 : SwapChainDescriptor) : Example → Prop
  | start : Reachable sc0 (init sc0)
  | step {e e' : Example} : Reachable sc0 e → Step e e' → Reachable sc0 e'

/-- A concrete swap-chain descriptor used in concrete instantiations. -/
def scDesc0 : SwapChainDescriptor := { width := 800, height := 600, format := 0 }

/-- A concrete presentable frame whose view is single-sampled. -/
def frame0 : SwapChainTexture :=
  { view := { width := 800, height := 600, sample_count := 1, format := 0 } }

/-- A concrete, fully computable `Example` state with the given
`sample_count` and `rebuild_bundle` flag, used for concrete
instantiations. -/
def mkState (n : Nat) (flag : Bool) : Example :=
  { bundle := create_bundle scDesc0 n 100
    vs_module := 0
    fs_module := 1
    pipeline_layout := 2
    multisampled_framebuffer := create_multisampled_framebuffer scDesc0 n
    vertex_buffer := []
    vertex_count := 100
    sample_count := n
    rebuild_bundle := flag
    sc_desc := scDesc0 }

/-- The effect of one increase/decrease input on the `sample_count` field
alone, read off from the two guarded branches of `update`. -/
def stepSampleCount : MsaaInput → Nat → Nat
  | .decrease, n => if 2 ≤ n then n >>> 1 else n
  | .increase, n => if n ≤ 16 then (n <<< 1) % 2 ^ 32 else n

theorem update_sample_count (e : Example) (i : MsaaInput) :
    (update e (inputEvent i)).sample_count = stepSampleCount i e.sample_count := by
  cases i <;> simp only [update, inputEvent, stepSampleCount] <;> split <;> rfl

theorem applyInputs_sample_count (e : Example) (l : List MsaaInput) :
    (applyInputs e l).sample_count =
      l.foldl (fun n i => stepSampleCount i n) e.sample_count := by
  induction l generalizing e with
  | nil => rfl
  | cons i l ih =>
      show (applyInputs (update e (inputEvent i)) l).sample_count = _
      rw [ih, update_sample_count]
      rfl

theorem stepSampleCount_mem (i : MsaaInput) (n : Nat)
    (h : n ∈ [1, 2, 4, 8, 16, 32]) :
    stepSampleCount i n ∈ [1, 2, 4, 8, 16, 32] := by
  fin_cases h <;> cases i <;> decide

theorem foldl_stepSampleCount_mem (l : List MsaaInput) (n : Nat)
    (h : n ∈ [1, 2, 4, 8, 16, 32]) :
    l.foldl (fun m i => stepSampleCount i m) n ∈ [1, 2, 4, 8, 16, 32] := by
  induction l generalizing n with
  | nil => exact h
  | cons i l ih => exact ih _ (stepSampleCount_mem i n h)

/-- C1, counterexample: three consecutive increase inputs from the initial
`sample_count = 4` drive `sample_count` to 32, which is outside the claimed
set {1,2,4,8,16} and differs from the claimed closed form
`2 ^ clamp(2 + net_steps, 0, 4) = 16` (the `update` guard is
`sample_count <= 16`, so 16 is doubled to 32). -/
theorem C1_counterexample :
    (applyInputs (mkState 4 false)
        [MsaaInput.increase, MsaaInput.increase, MsaaInput.increase]).sample_count = 32 ∧
    (applyInputs (mkState 4 false)
        [MsaaInput.increase, MsaaInput.increase, MsaaInput.increase]).sample_count ∉
      [1, 2, 4, 8, 16] ∧
    (2 : ℕ) ^ (min (max (2 + 3) 0) 4) = 16 := by
  decide

/-- C1 (amended): starting from any state with the initial
`sample_count = 4`, every sequence of increase/decrease inputs applied by
`update` keeps `sample_count` within {1,2,4,8,16,32}. -/
theorem C1_sample_count_invariant (e : Example) (h : e.sample_count = 4)
    (l : List MsaaInput) :
    (applyInputs e l).sample_count ∈ [1, 2, 4, 8, 16, 32] := by
  rw [applyInputs_sample_count]
  refine foldl_stepSampleCount_mem l _ ?_
  rw [h]
  decide

theorem C1_witness :
    (applyInputs (mkState 4 false) [MsaaInput.decrease]).sample_count ∈
      [1, 2, 4, 8, 16, 32] :=
  C1_sample_count_invariant (mkState 4 false) rfl [MsaaInput.decrease]

/-- C2, counterexample: from an Idle state with `sample_count = 16`, an
increase input doubles `sample_count` to 32 and sets the rebuild flag — the
guard in `update` is `sample_count <= 16`, so 16 is not a no-op boundary. -/
theorem C2_counterexample :
    (mkState 16 false).rebuild_bundle = false ∧
    (update (mkState 16 false) (inputEvent MsaaInput.increase)).sample_count = 32 ∧
    (update (mkState 16 false) (inputEvent MsaaInput.increase)).rebuild_bundle = true := by
  decide

/-- C2 (amended): when `update` receives an increase input while
`sample_count` is 16, `sample_count` becomes 32 and the rebuild flag is
set (the state becomes Dirty); the increase is not silently clamped
at 16. -/
theorem C2_increase_at_16 (e : Example) (h : e.sample_count = 16) :
    (update e (inputEvent MsaaInput.increase)).sample_count = 32 ∧
    (update e (inputEvent MsaaInput.increase)).rebuild_bundle = true := by
  constructor <;> simp [update, inputEvent, h]

theorem C2_witness :
    (update (mkState 16 true) (inputEvent MsaaInput.increase)).sample_count = 32 ∧
    (update (mkState 16 true) (inputEvent MsaaInput.increase)).rebuild_bundle = true :=
  C2_increase_at_16 (mkState 16 true) rfl

/-- C3 (confirmed): when `render` is called with the rebuild flag set, the
bundle is rebuilt from the current `sc_desc` and `sample_count`, the
multisample framebuffer is rebuilt from the current `sc_desc` (width and
height) and `sample_count`, and the flag is cleared, so afterwards the
installed bundle's sample count equals the current `sample_count` and the
target's dimensions equal the recorded width/height. -/
theorem C3_render_dirty_rebuilds (e : Example) (frame : SwapChainTexture)
    (h : e.rebuild_bundle = true) :
    (render e frame).state.bundle =
      create_bundle e.sc_desc e.sample_count e.vertex_count ∧
    (render e frame).state.multisampled_framebuffer =
      create_multisampled_framebuffer e.sc_desc e.sample_count ∧
    (render e frame).state.rebuild_bundle = false ∧
    (render e frame).state.bundle.sample_count =
      (render e frame).state.sample_count ∧
    (render e frame).state.bundle.color_format =
      (render e frame).state.sc_desc.format ∧
    (render e frame).state.multisampled_framebuffer.width =
      (render e frame).state.sc_desc.width ∧
    (render e frame).state.multisampled_framebuffer.height =
      (render e frame).state.sc_desc.height ∧
    (render e frame).state.multisampled_framebuffer.sample_count =
      (render e frame).state.sample_count := by
  refine ⟨?_, ?_, ?_, ?_, ?_, ?_, ?_, ?_⟩ <;>
    simp [render, h, create_bundle, create_multisampled_framebuffer]

theorem C3_witness :
    (render (mkState 4 true) frame0).state.bundle =
      create_bundle (mkState 4 true).sc_desc (mkState 4 true).sample_count
        (mkState 4 true).vertex_count ∧
    (render (mkState 4 true) frame0).state.multisampled_framebuffer =
      create_multisampled_framebuffer (mkState 4 true).sc_desc
        (mkState 4 true).sample_count ∧
    (render (mkState 4 true) frame0).state.rebuild_bundle = false ∧
    (render (mkState 4 true) frame0).state.bundle.sample_count =
      (render (mkState 4 true) frame0).state.sample_count ∧
    (render (mkState 4 true) frame0).state.bundle.color_format =
      (render (mkState 4 true) frame0).state.sc_desc.format ∧
    (render (mkState 4 true) frame0).state.multisampled_framebuffer.width =
      (render (mkState 4 true) frame0).state.sc_desc.width ∧
    (render (mkState 4 true) frame0).state.multisampled_framebuffer.height =
      (render (mkState 4 true) frame0).state.sc_desc.height ∧
    (render (mkState 4 true) frame0).state.multisampled_framebuffer.sample_count =
      (render (mkState 4 true) frame0).state.sample_count :=
  C3_render_dirty_rebuilds (mkState 4 true) frame0 rfl

/-- C4, counterexample: `resize` from an Idle state leaves the rebuild flag
`false` — it does not transition the state to Dirty; the new width and
height are recorded all the same. -/
theorem C4_counterexample :
    (mkState 4 false).rebuild_bundle = false ∧
    (resize (mkState 4 false)
        { width := 1024, height := 768, format := 0 }).rebuild_bundle = false ∧
    (resize (mkState 4 false)
        { width := 1024, height := 768, format := 0 }).sc_desc.width = 1024 ∧
    (resize (mkState 4 false)
        { width := 1024, height := 768, format := 0 }).sc_desc.height = 768 := by
  decide

/-- C4 (amended): every `resize` call records the new width and height and
immediately rebuilds the multisample framebuffer for the new dimensions at
the current `sample_count`; the rebuild flag is left unchanged rather than
set. -/
theorem C4_resize_records (e : Example) (sc : SwapChainDescriptor) :
    (resize e sc).sc_desc = sc ∧
    (resize e sc).multisampled_framebuffer =
      create_multisampled_framebuffer sc e.sample_count ∧
    (resize e sc).multisampled_framebuffer.width = sc.width ∧
    (resize e sc).multisampled_framebuffer.height = sc.height ∧
    (resize e sc).rebuild_bundle = e.rebuild_bundle :=
  ⟨rfl, rfl, rfl, rfl, rfl⟩

theorem render_state_sample_count (e : Example) (frame : SwapChainTexture) :
    (render e frame).state.sample_count = e.sample_count := by
  by_cases h : e.rebuild_bundle = true <;> simp [render, h]

/-- C5 (confirmed): every `render` call selects the pass configuration by
the current `sample_count` alone: at 1, the sole color attachment is the
frame's surface view with no resolve target, load Clear(black), store
Store; above 1, the sole color attachment is the multisample framebuffer
with the surface view as resolve target, load Clear(black), store Store;
in both cases the stored bundle is the one executed inside the pass. -/
theorem C5_pass_selection (e : Example) (frame : SwapChainTexture) :
    (e.sample_count = 1 →
      (render e frame).command.color_attachments =
        [{ attachment := frame.view
           resolve_target := none
           load_op := LoadOp.Clear
           store_op := StoreOp.Store
           clear_color := Color.BLACK }]) ∧
    (e.sample_count ≠ 1 →
      (render e frame).command.color_attachments =
        [{ attachment := (render e frame).state.multisampled_framebuffer
           resolve_target := some frame.view
           load_op := LoadOp.Clear
           store_op := StoreOp.Store
           clear_color := Color.BLACK }]) ∧
    (render e frame).command.executed_bundles = [(render e frame).state.bundle] := by
  refine ⟨?_, ?_, ?_⟩
  · intro h1
    by_cases hb : e.rebuild_bundle = true <;> simp [render, hb, h1]
  · intro h1
    by_cases hb : e.rebuild_bundle = true <;> simp [render, hb, h1]
  · by_cases hb : e.rebuild_bundle = true <;> simp [render, hb]

theorem C5_witness :
    (render (mkState 1 false) frame0).command.color_attachments =
      [{ attachment := frame0.view
         resolve_target := none
         load_op := LoadOp.Clear
         store_op := StoreOp.Store
         clear_color := Color.BLACK }] ∧
    (render (mkState 4 false) frame0).command.color_attachments =
      [{ attachment := (render (mkState 4 false) frame0).state.multisampled_framebuffer
         resolve_target := some frame0.view
         load_op := LoadOp.Clear
         store_op := StoreOp.Store
         clear_color := Color.BLACK }] :=
  ⟨(C5_pass_selection (mkState 1 false) frame0).1 rfl,
   (C5_pass_selection (mkState 4 false) frame0).2.1 (by decide)⟩

/-- C6 (confirmed): calling `render` twice from an Idle state (rebuild flag
clear) with the same frame and no input or resize in between leaves the
state untouched, invokes `create_bundle` on neither call, and produces two
identical command buffers. -/
theorem C6_idle_render_idempotent (e : Example) (frame : SwapChainTexture)
    (h : e.rebuild_bundle = false) :
    (render e frame).state = e ∧
    (render e frame).bundle_built = false ∧
    (render (render e frame).state frame).bundle_built = false ∧
    (render (render e frame).state frame).command = (render e frame).command := by
  have hs : (render e frame).state = e := by simp [render, h]
  refine ⟨hs, ?_, ?_, ?_⟩
  · simp [render, h]
  · rw [hs]; simp [render, h]
  · rw [hs]

theorem C6_witness :
    (render (mkState 4 false) frame0).state = mkState 4 false ∧
    (render (mkState 4 false) frame0).bundle_built = false ∧
    (render (render (mkState 4 false) frame0).state frame0).bundle_built = false ∧
    (render (render (mkState 4 false) frame0).state frame0).command =
      (render (mkState 4 false) frame0).command :=
  C6_idle_render_idempotent (mkState 4 false) frame0 rfl

theorem length_flatMap_two {α : Type} (g : ℕ → List α)
    (h2 : ∀ j, (g j).length = 2) :
    ∀ m, ((List.range m).flatMap g).length = 2 * m := by
  intro m
  induction m with
  | zero => rfl
  | succ n ih =>
      rw [List.range_succ, List.flatMap_append, List.length_append, ih]
      have h : ([n].flatMap g).length = 2 := by simpa using h2 n
      omega

theorem flatMap_two_getElem {α : Type} (g : ℕ → List α) (a b : ℕ → α)
    (hg : ∀ j, g j = [a j, b j]) :
    ∀ m i, i < m →
      ((List.range m).flatMap g)[2 * i]? = some (a i) ∧
      ((List.range m).flatMap g)[2 * i + 1]? = some (b i) := by
  intro m
  induction m with
  | zero => intro i hi; exact absurd hi (Nat.not_lt_zero i)
  | succ n ih =>
      intro i hi
      have hlen : ((List.range n).flatMap g).length = 2 * n :=
        length_flatMap_two g (fun j => by rw [hg j]; rfl) n
      rw [List.range_succ, List.flatMap_append]
      by_cases h : i < n
      · constructor
        · rw [List.getElem?_append, if_pos (by rw [hlen]; omega)]
          exact (ih i h).1
        · rw [List.getElem?_append, if_pos (by rw [hlen]; omega)]
          exact (ih i h).2
      · have hin : i = n := by omega
        subst hin
        constructor
        · rw [List.getElem?_append, if_neg (by rw [hlen]; omega), hlen]
          simp [hg i]
        · rw [List.getElem?_append, if_neg (by rw [hlen]; omega), hlen]
          simp [hg i]

theorem vertex_data_getElem (max i : ℕ) (hi : i < max) :
    (vertex_data max)[2 * i]? = some (centerVertex max i) ∧
    (vertex_data max)[2 * i + 1]? = some (rimVertex max i) :=
  flatMap_two_getElem _ (centerVertex max) (rimVertex max)
    (fun _ => rfl) max i hi

/-- C7 (confirmed): the vertex loop with divisor `segment_count` produces
exactly `2 * segment_count` vertices (so `segment_count = 0` yields the
empty sequence), and for every pair `(2i, 2i+1)` the vertex at index `2i`
sits at position `(0,0)` — distance 0 from the origin — while the vertex at
index `2i+1` sits at `(cos θ, sin θ)` with `θ = (i / segment_count) · 2π`,
at distance 1 from the origin. -/
theorem C7_geometry (max : ℕ) :
    (vertex_data max).length = 2 * max ∧
    vertex_data 0 = [] ∧
    ∀ i, i < max →
      (vertex_data max)[2 * i]?.map Vertex.pos = some ((0 : ℝ), (0 : ℝ)) ∧
      (vertex_data max)[2 * i]?.map
          (fun v => Real.sqrt (v.pos.1 ^ 2 + v.pos.2 ^ 2)) = some 0 ∧
      (vertex_data max)[2 * i + 1]?.map Vertex.pos =
        some (Real.cos (angleOf max i), Real.sin (angleOf max i)) ∧
      (vertex_data max)[2 * i + 1]?.map
          (fun v => Real.sqrt (v.pos.1 ^ 2 + v.pos.2 ^ 2)) = some 1 := by
  refine
    ⟨length_flatMap_two (fun i => [centerVertex max i, rimVertex max i])
      (fun j => rfl) max, rfl, ?_⟩
  intro i hi
  obtain ⟨h0, h1⟩ := vertex_data_getElem max i hi
  refine ⟨?_, ?_, ?_, ?_⟩
  · rw [h0]; rfl
  · rw [h0]
    simp [centerVertex]
  · rw [h1]
    simp [rimVertex]
  · rw [h1]
    simp only [Option.map_some', rimVertex, one_mul]
    rw [Real.cos_sq_add_sin_sq, Real.sqrt_one]

theorem C7_witness :
    (vertex_data 1).length = 2 ∧
    (vertex_data 1)[1]?.map
        (fun v => Real.sqrt (v.pos.1 ^ 2 + v.pos.2 ^ 2)) = some 1 :=
  ⟨(C7_geometry 1).1, ((C7_geometry 1).2.2 0 Nat.one_pos).2.2.2⟩

/-- In an Idle state (rebuild flag clear), the stored bundle and the stored
multisample framebuffer were both built with the current `sample_count`. -/
def sampleCountsConsistent (e : Example) : Prop :=
  e.rebuild_bundle = false →
    e.bundle.sample_count = e.sample_count ∧
    e.multisampled_framebuffer.sample_count = e.sample_count

theorem update_eq_or_dirty (e : Example) (ev : WindowEvent) :
    update e ev = e ∨ (update e ev).rebuild_bundle = true := by
  cases ev with
  | OtherEvent => exact Or.inl rfl
  | KeyboardInput st key =>
      cases st with
      | Released => exact Or.inl rfl
      | Pressed =>
          rcases key with _ | k
          · exact Or.inl rfl
          · cases k with
            | Left =>
                by_cases h : 2 ≤ e.sample_count
                · right; simp [update, h]
                · left; simp [update, h]
            | Right =>
                by_cases h : e.sample_count ≤ 16
                · right; simp [update, h]
                · left; simp [update, h]
            | OtherKey => exact Or.inl rfl

theorem render_state_rebuild_bundle (e : Example) (frame : SwapChainTexture) :
    (render e frame).state.rebuild_bundle = false := by
  by_cases hb : e.rebuild_bundle = true <;> simp [render, hb]

theorem step_consistent {e e' : Example} (ih : sampleCountsConsistent e)
    (hs : Step e e') : sampleCountsConsistent e' := by
  cases hs with
  | doUpdate ev =>
      rcases update_eq_or_dirty e ev with heq | hd
      · rw [heq]; exact ih
      · intro hfalse; rw [hd] at hfalse; cases hfalse
  | doResize sc =>
      intro hfalse
      obtain ⟨h1, _⟩ := ih hfalse
      exact ⟨h1, rfl⟩
  | doRender frame =>
      intro _
      by_cases hb : e.rebuild_bundle = true
      · constructor <;>
          simp [render, hb, create_bundle, create_multisampled_framebuffer]
      · have hb' : e.rebuild_bundle = false := by simpa using hb
        have hst : (render e frame).state = e := by simp [render, hb']
        rw [hst]
        exact ih hb'

theorem reachable_consistent {sc0 : SwapChainDescriptor} {e : Example}
    (h : Reachable sc0 e) : sampleCountsConsistent e := by
  induction h with
  | start => intro _; exact ⟨rfl, rfl⟩
  | step hr hs ih => exact step_consistent ih hs

theorem render_command_eq (e : Example) (frame : SwapChainTexture) :
    (render e frame).command =
      { color_attachments :=
          [if (render e frame).state.sample_count = 1 then
            { attachment := frame.view
              resolve_target := none
              load_op := LoadOp.Clear
              store_op := StoreOp.Store
              clear_color := Color.BLACK }
          else
            { attachment := (render e frame).state.multisampled_framebuffer
              resolve_target := some frame.view
              load_op := LoadOp.Clear
              store_op := StoreOp.Store
              clear_color := Color.BLACK }]
        executed_bundles := [(render e frame).state.bundle] } := by
  by_cases hb : e.rebuild_bundle = true <;> simp [render, hb]

/-- C8 (confirmed): for every state reachable from `init` and every
single-sampled presentable frame, the render pass encoded by `render`
executes only bundles whose recorded sample count equals the sample count
of the pass's color attachment (the surface view at `sample_count = 1`, the
multisample framebuffer otherwise). -/
theorem C8_no_mismatch (sc0 : SwapChainDescriptor) (e : Example)
    (h : Reachable sc0 e) (frame : SwapChainTexture)
    (hframe : frame.view.sample_count = 1) :
    (render e frame).command.executed_bundles.map RenderBundle.sample_count =
      (render e frame).command.color_attachments.map
        (fun a => a.attachment.sample_count) := by
  have hreach : Reachable sc0 (render e frame).state :=
    h.step (Step.doRender e frame)
  obtain ⟨hb, hfb⟩ :=
    reachable_consistent hreach (render_state_rebuild_bundle e frame)
  rw [render_command_eq]
  by_cases h1 : (render e frame).state.sample_count = 1
  · rw [if_pos h1]
    simp [hframe, hb, h1]
  · rw [if_neg h1]
    simp [hb, hfb]

theorem C8_witness :
    (render (init scDesc0) frame0).command.executed_bundles.map
        RenderBundle.sample_count =
      (render (init scDesc0) frame0).command.color_attachments.map
        (fun a => a.attachment.sample_count) :=
  C8_no_mismatch scDesc0 (init scDesc0) Reachable.start frame0 rfl

/-- C9 (confirmed): `init` constructs the state with the rebuild flag
clear (Idle), `sample_count = 4`, a multisample framebuffer built for the
initial surface dimensions at sample count 4, and a bundle built for sample
count 4 over the generated vertex data. -/
theorem C9_init (sc0 : SwapChainDescriptor) :
    (init sc0).rebuild_bundle = false ∧
    (init sc0).sample_count = 4 ∧
    (init sc0).multisampled_framebuffer = create_multisampled_framebuffer sc0 4 ∧
    (init sc0).multisampled_framebuffer.width = sc0.width ∧
    (init sc0).multisampled_framebuffer.height = sc0.height ∧
    (init sc0).multisampled_framebuffer.sample_count = 4 ∧
    (init sc0).bundle = create_bundle sc0 4 (vertex_data 50).length ∧
    (init sc0).bundle.sample_count = 4 ∧
    (init sc0).vertex_buffer = vertex_data 50 ∧
    (init sc0).vertex_count = (vertex_data 50).length :=
  ⟨rfl, rfl, rfl, rfl, rfl, rfl, rfl, rfl, rfl, rfl⟩

/-- C10 (confirmed): `resize` assigns only the stored swap-chain descriptor
and the multisample framebuffer; `sample_count`, the rebuild flag, the
bundle, the vertex buffer, `vertex_count`, both shader modules and the
pipeline layout are left unchanged. -/
theorem C10_resize_frame (e : Example) (sc : SwapChainDescriptor) :
    (resize e sc).sample_count = e.sample_count ∧
    (resize e sc).rebuild_bundle = e.rebuild_bundle ∧
    (resize e sc).bundle = e.bundle ∧
    (resize e sc).vertex_buffer = e.vertex_buffer ∧
    (resize e sc).vertex_count = e.vertex_count ∧
    (resize e sc).vs_module = e.vs_module ∧
    (resize e sc).fs_module = e.fs_module ∧
    (resize e sc).pipeline_layout = e.pipeline_layout ∧
    (resize e sc).sc_desc = sc ∧
    (resize e sc).multisampled_framebuffer =
      create_multisampled_framebuffer sc e.sample_count :=
  ⟨rfl, rfl, rfl, rfl, rfl, rfl, rfl, rfl, rfl, rfl⟩

end MsaaLine
